import Mathlib

/-!
Verification development for the pragmatic-auto-translator repository.

The repository has two JavaScript source files:
 - `src/unnamed/part_000` (the JINA embedding module: environment detection,
   API-key management, the JINA API call with input truncation, and
   `createUserInputEmbedding` / `loadEmbeddingModel`);
 - `src/frontend/js/main.js` (DOM wiring: the translate button, the
   translation pipeline `handleTranslation`, and `updateTranslationOutput`).

The retrieval core referenced by `main.js` (`findSimilarContext`, the
similarity scorer, the ranker and the context budgeter, and
`translateWithContext`) is not among the repository's files; those parts are
modelled from the spec's words and are marked `Modelled from the spec:` in
their doc comments.  Everything else is a direct shallow embedding of the
JavaScript: JS strings become `String` (or `List Char` where lengths and
truncation matter), `null`-able values become `Option`, thrown exceptions
become `Except`/explicit error components, and module-level mutable state
(`JINA_CONFIG.API_KEY`, `localStorage`) becomes an explicit state record.
-/

namespace PragmaticAutoTranslator

/-! ## Environment detection and API-key state (src/unnamed/part_000) -/

/-- The two environments `detectEnvironment` (part_000, lines 18-24) can
return: `github_pages` when the hostname is a github domain, otherwise
`local_development`. -/
inductive Environment
  | githubPages
  | localDevelopment
deriving DecidableEq

/-- The mutable key sources of part_000 as one explicit state record:
`manualKey` is the module variable `JINA_CONFIG.API_KEY` (line 54, set by
`setJinaApiKey`), `localStore` is `localStorage.getItem('jina_api_key')`,
`configFileKey` is `localConfig?.JINA_CONFIG?.API_KEY` from the optional
`api-config.js` file, and `envVarsKey` is `window.ENV_VARS?.JINA_API_KEY`.
`none` models JS `null`/absence. -/
structure ApiState where
  manualKey : Option String
  localStore : Option String
  configFileKey : Option String
  envVarsKey : Option String
deriving DecidableEq

/-- JS truthiness of a nullable string: `null` and the empty string are
falsy, every other string is truthy. -/
def jsTruthy : Option String → Bool
  | none => false
  | some s => !(s == "")

/-- `setJinaApiKey` (part_000, lines 70-76): throws `'Invalid API key
provided'` when the key is falsy (the `typeof` check is subsumed by typing),
otherwise stores the key in `JINA_CONFIG.API_KEY`. -/
def setJinaApiKey (apiKey : String) (s : ApiState) : Except String ApiState :=
  if apiKey = "" then .error "Invalid API key provided"
  else .ok { s with manualKey := some apiKey }

/-- `storeApiKeyLocally` (part_000, lines 81-89).  When `localStorage` is
available it first writes the key to `localStorage` and then calls
`setJinaApiKey` to also set it in memory; a throw from `setJinaApiKey`
propagates after the `localStorage` write has already happened, so the
result is the pair (thrown error message if any, state as mutated so far).
When `localStorage` is unavailable it throws without touching any state. -/
def storeApiKeyLocally (apiKey : String) (localStorageAvailable : Bool)
    (s : ApiState) : Option String × ApiState :=
  if localStorageAvailable then
    let s1 := { s with localStore := some apiKey }
    match setJinaApiKey apiKey s1 with
    | .ok s2 => (none, s2)
    | .error e => (some e, s1)
  else (some "localStorage not available", s)

/-- `getApiKey` (part_000, lines 94-129): the manually set key wins in every
environment; in `local_development` the `localStorage` key is consulted next
and then the `api-config.js` key; in `github_pages` only the injected
environment variable is consulted; otherwise `null`. -/
def getApiKey (s : ApiState) (env : Environment) : Option String :=
  if jsTruthy s.manualKey then s.manualKey
  else
    match env with
    | .localDevelopment =>
        if jsTruthy s.localStore then s.localStore
        else if jsTruthy s.configFileKey then s.configFileKey
        else none
    | .githubPages =>
        if jsTruthy s.envVarsKey then s.envVarsKey
        else none

/-! ## The JINA API call (src/unnamed/part_000, lines 165-218) -/

/-- `JINA_CONFIG.MAX_INPUT_LENGTH` (part_000, line 55). -/
def MAX_INPUT_LENGTH : Nat := 8192

/-- `JINA_CONFIG.MODEL` (part_000, line 52). -/
def JINA_MODEL : String := "jina-embeddings-v3"

/-- `JINA_CONFIG.DIMENSIONS` (part_000, line 53). -/
def JINA_DIMENSIONS : Nat := 1024

/-- The per-input preprocessing `callJinaAPI` applies inside its `forEach`
(part_000, lines 176-184): an input longer than `MAX_INPUT_LENGTH` is
replaced by `text.substring(0, MAX_INPUT_LENGTH)` (with only a debug log, no
throw); shorter inputs are left unchanged.  JS strings are modelled as
`List Char`. -/
def jinaPrepareText (t : List Char) : List Char :=
  if t.length > MAX_INPUT_LENGTH then t.take MAX_INPUT_LENGTH else t

/-- The distinguishable errors `callJinaAPI` can throw before reaching the
network (part_000, lines 168-184): the missing-credential throw at line 171
(`'JINA API key not available…'`) is a distinct error from everything else. -/
inductive JinaError
  | apiKeyMissing
  | providerError
deriving DecidableEq

/-- The request body `callJinaAPI` builds (part_000, lines 186-192). -/
structure JinaRequest where
  input : List (List Char)
  model : String
  dimensions : Nat
  normalized : Bool
deriving DecidableEq

/-- The pre-network phase of `callJinaAPI` (part_000, lines 165-202): obtain
the key via `getApiKey`; when it is `null`, throw the missing-key error
before anything else — in particular before `fetch` is reached, which in
this model means no `JinaRequest` is ever produced.  With a key present, the
inputs are truncated by `jinaPrepareText` and assembled into the request
that `fetch` then sends.  (The non-string input throw is subsumed by
typing.) -/
def callJinaAPIPrepare (s : ApiState) (env : Environment)
    (input : List (List Char)) : Except JinaError JinaRequest :=
  match getApiKey s env with
  | none => .error .apiKeyMissing
  | some _ =>
      .ok { input := input.map jinaPrepareText,
            model := JINA_MODEL,
            dimensions := JINA_DIMENSIONS,
            normalized := true }

/-- `getApiKeyStatus(…).hasKey` (part_000, lines 134-159): `!!key`. -/
def hasKey (s : ApiState) (env : Environment) : Bool :=
  (getApiKey s env).isSome

/-- The credential gate of `loadEmbeddingModel` (part_000, lines 261-270):
it throws `'JINA API key required…'` when the key status has no key, before
its test call to `callJinaAPI` (and hence before any network request). -/
def loadEmbeddingModelGate (s : ApiState) (env : Environment) :
    Except JinaError Unit :=
  if hasKey s env then .ok () else .error .apiKeyMissing

/-! ## createUserInputEmbedding (src/unnamed/part_000, lines 220-259) -/

/-- The errors `createUserInputEmbedding` can throw (part_000, lines
221-234), plus propagation of a `callJinaAPI` failure through the awaited
call at line 230. -/
inductive EmbedError
  | inputRequired
  | emptyAfterCleaning
  | apiError (e : JinaError)
  | noEmbedding
deriving DecidableEq

/-- The value `createUserInputEmbedding` returns (part_000, lines 239-258),
restricted to the fields the verification uses.  `mismatchNote` is the
`dimensionMismatch.note` string computed at lines 254-256. -/
structure UserEmbedding where
  originalText : String
  preprocessedText : String
  embedding : List ℚ
  dimension : Nat
  mismatchNote : String
deriving DecidableEq

/-- The note strings of part_000, lines 255-256. -/
def mismatchNoteText : String := "Dimension mismatch - consider regenerating corpus"

/-- The matching-dimensions note of part_000, line 256. -/
def matchNoteText : String := "Dimensions match"

/-- `createUserInputEmbedding` (part_000, lines 220-259).  `cleanText` is
the utility from `utils.js`, which is not among the repository's files, so
it is passed in as a parameter; `apiResult` stands for the awaited
`callJinaAPI(cleanedText)` response, carrying `response.data[0].embedding`
(`none` models a response whose first datum has no `embedding` field, the
throw at lines 233-234).  The essential behaviour under verification: when
an embedding comes back, the function RETURNS NORMALLY whatever its
dimension is, merely recording in `mismatchNote` whether it agrees with the
configured corpus dimension (`config.MODELS.EMBEDDING.dimension`). -/
def createUserInputEmbedding (cleanText : String → String)
    (apiResult : Except JinaError (Option (List ℚ)))
    (corpusDimension : Nat) (text : String) : Except EmbedError UserEmbedding :=
  if text = "" then .error .inputRequired
  else
    let cleanedText := cleanText text
    if cleanedText = "" then .error .emptyAfterCleaning
    else
      match apiResult with
      | .error e => .error (.apiError e)
      | .ok none => .error .noEmbedding
      | .ok (some emb) =>
          .ok { originalText := text,
                preprocessedText := cleanedText,
                embedding := emb,
                dimension := emb.length,
                mismatchNote :=
                  if emb.length ≠ corpusDimension then mismatchNoteText
                  else matchNoteText }

/-! ## The similarity scorer

Modelled from the spec: the SimilarityScorer component is referenced by
`main.js` (via `findSimilarContext`) but its code is not among the
repository's files.  Following spec §4.1: base-case score is cosine
similarity `dot(query, candidate) / (‖query‖ · ‖candidate‖)`; mismatched
dimensions "always raise DimensionMismatch"; a zero-magnitude vector on
either side is treated as score 0 rather than an undefined quotient.
Vector entries are modelled as real numbers. -/

/-- Dot product of two equal-length vectors (spec §4.1). -/
def dot (a b : List ℝ) : ℝ := (List.zipWith (fun x y => x * y) a b).sum

/-- The error the scorer raises (spec §7: the scorer raises only
`DimensionMismatch` or `EmptyInput`; only the former concerns vectors). -/
inductive SimError
  | dimensionMismatch
deriving DecidableEq

open Classical in
/-- Modelled from the spec: `score` with `advanced = false` (spec §4.1).
The dimension check comes first, because mismatched-dimension inputs
"always raise DimensionMismatch" (spec §8); then the zero-magnitude guard
(`dot v v = 0` is exactly `‖v‖ = 0` over ℝ), and only then the cosine
quotient. -/
noncomputable def cosineSimilarity (q c : List ℝ) : Except SimError ℝ :=
  if q.length ≠ c.length then .error .dimensionMismatch
  else if dot q q = 0 ∨ dot c c = 0 then .ok 0
  else .ok (dot q c / (Real.sqrt (dot q q) * Real.sqrt (dot c c)))

/-! ## The data model of the retrieval core

Modelled from the spec (§3): the VectorStore / CorpusItem / ScoredMatch /
RankedContext / ContextSelection shapes the referenced-but-absent retrieval
code works over.  Scores are modelled as rationals, which keeps the ranking
and budgeting pipeline executable; none of the ordering or budgeting claims
depends on score values beyond their order. -/

/-- The three corpus levels (spec §3).  The middle level is called
`section` in the JS data; that word is a Lean keyword, so the constructor
is named `sect`. -/
inductive Level
  | document
  | sect
  | paragraph
deriving DecidableEq

/-- A corpus item (spec §3): id, level, embedding, text and optional
metadata.  Texts are `List Char` so that character counts are lengths. -/
structure CorpusItem where
  id : Nat
  level : Level
  embedding : List ℚ
  text : List Char
  title : Option String
  document_id : Option Nat
deriving DecidableEq

/-- The VectorStore (spec §3): three ordered sequences of corpus items,
insertion order = corpus file order. -/
structure VectorStore where
  documents : List CorpusItem
  sections : List CorpusItem
  paragraphs : List CorpusItem
deriving DecidableEq

/-- A scored match (spec §3): `{ item, score, level }`. -/
structure ScoredMatch where
  item : CorpusItem
  score : ℚ
  level : Level
deriving DecidableEq

/-- A context selection (spec §3/§4.3): the included matches in ranked
order plus `totalResults` and `contextLength` (characters). -/
structure ContextSelection where
  items : List ScoredMatch
  totalResults : Nat
  contextLength : Nat
deriving DecidableEq

/-! ## The context ranker

Modelled from the spec (§4.2): score every item of all three levels, merge
into one list, and sort descending by effective score with a stable sort;
`priorityStrategy` adds a bonus to the favored level's score before the
sort ("an additive or multiplicative bonus"; the additive form is chosen,
with the magnitude — an implementation choice per the spec — left as a
parameter). -/

/-- The three priority strategies (spec §4.2). -/
inductive PriorityStrategy
  | balanced
  | documentsFirst
  | paragraphsFirst
deriving DecidableEq

/-- Modelled from the spec: the additive level bonus of the priority
strategy (spec §4.2): `balanced` adds nothing; the other two strategies add
`bonus` to the named level only. -/
def levelBonus (bonus : ℚ) (strat : PriorityStrategy) (l : Level) : ℚ :=
  match strat with
  | .balanced => 0
  | .documentsFirst => if l = .document then bonus else 0
  | .paragraphsFirst => if l = .paragraph then bonus else 0

/-- Modelled from the spec: the effective score the ranker sorts by
(spec §4.2): raw score plus the strategy's level bonus. -/
def effectiveScore (bonus : ℚ) (strat : PriorityStrategy) (m : ScoredMatch) : ℚ :=
  m.score + levelBonus bonus strat m.level

/-- Modelled from the spec: scoring every item of the store at its level
(spec §4.2, "Scores every item across all three levels using
SimilarityScorer"), in insertion order.  The per-(query, candidate, level)
scoring function is a parameter, covering both the basic and the advanced
strategy (spec §4.1 leaves the advanced weighting formula open). -/
def scoreStore (score : List ℚ → List ℚ → Level → ℚ) (q : List ℚ)
    (store : VectorStore) : List ScoredMatch :=
  (store.documents.map fun it =>
    { item := it, score := score q it.embedding .document, level := .document }) ++
  (store.sections.map fun it =>
    { item := it, score := score q it.embedding .sect, level := .sect }) ++
  (store.paragraphs.map fun it =>
    { item := it, score := score q it.embedding .paragraph, level := .paragraph })

/-- Modelled from the spec: `rank` (spec §4.2): one merged list, stably
sorted descending by effective score (`mergeSort` is stable, and ties keep
first-seen-first order as the spec requires). -/
def rank (score : List ℚ → List ℚ → Level → ℚ) (bonus : ℚ) (q : List ℚ)
    (store : VectorStore) (strat : PriorityStrategy) : List ScoredMatch :=
  (scoreStore score q store).mergeSort fun a b =>
    decide (effectiveScore bonus strat b ≤ effectiveScore bonus strat a)

/-! ## The context budgeter

Modelled from the spec (§4.3): walk the ranked list in order accumulating
included text lengths; include an item only when adding its full text keeps
the running total within `maxContextLength`; after a skip, keep examining
the remaining lower-ranked items (best-effort packing). -/

/-- The walk of the budgeter with its running total of included characters. -/
def budgetGo (maxContextLength : Nat) : List ScoredMatch → Nat → List ScoredMatch
  | [], _ => []
  | m :: rest, total =>
      if total + m.item.text.length ≤ maxContextLength then
        m :: budgetGo maxContextLength rest (total + m.item.text.length)
      else
        budgetGo maxContextLength rest total

/-- Modelled from the spec: `budget` (spec §4.3): the included items in
ranked order, `totalResults = count(included)` and `contextLength =
sum(len(text) for included)`; an empty result is a valid selection, not an
error. -/
def budget (ranked : List ScoredMatch) (maxContextLength : Nat) : ContextSelection :=
  let items := budgetGo maxContextLength ranked 0
  { items := items,
    totalResults := items.length,
    contextLength := (items.map fun m => m.item.text.length).sum }

/-- Modelled from the spec: `findSimilarContext` as `main.js` line 214
calls it — ranking followed by budgeting (spec §2 data flow). -/
def findSimilarContext (score : List ℚ → List ℚ → Level → ℚ) (bonus : ℚ)
    (q : List ℚ) (store : VectorStore) (strat : PriorityStrategy)
    (maxContextLength : Nat) : ContextSelection :=
  budget (rank score bonus q store strat) maxContextLength

/-! ## The orchestrator (src/frontend/js/main.js, lines 184-288)

`handleTranslation` is in the repository; the `translateWithContext`
function it awaits is not, so the latter is modelled from the spec (§4.4):
it assembles one request from the source text and the selection's included
items and relays the provider's response, with `contextUsed` the selection's
items. -/

/-- Modelled from the spec: the `{translatedText, contextUsed, metadata}`
result of `translate` (spec §4.4), restricted to the fields the
verification uses. -/
structure TranslationResult where
  translatedText : String
  contextUsed : List ScoredMatch
deriving DecidableEq

/-- Modelled from the spec: `translateWithContext` (spec §4.4): the
external provider (a parameter, consuming the source text and the serialized
context items) produces the translated text; `contextUsed` is exactly the
selection's included items. -/
def translateWithContext (translate : String → List ScoredMatch → String)
    (sourceText : String) (selection : ContextSelection) : TranslationResult :=
  { translatedText := translate sourceText selection.items,
    contextUsed := selection.items }

/-- The control flow of `handleTranslation` (main.js, lines 184-288) from
the point where the user embedding exists: `sourceText` is the already
trimmed text-area value of line 185 (`sourceTextArea?.value.trim()`), so
the empty-input early return at lines 187-190 (`if (!sourceText)`) is the
emptiness check; then the similarity search at line 214; the status branch
at lines 224-228, which only changes the status message — a zero-result
context does NOT abort the pipeline; the translation-readiness gate at
lines 232-247 (modelled as a boolean: ready, or a key was supplied at the
prompt — otherwise the early return at line 245); and the translation call
at line 253.  `none` models a return without a translation request. -/
def handleTranslation (score : List ℚ → List ℚ → Level → ℚ) (bonus : ℚ)
    (translate : String → List ScoredMatch → String) (sourceText : String)
    (q : List ℚ) (store : VectorStore) (strat : PriorityStrategy)
    (maxContextLength : Nat) (translationReady : Bool) :
    Option TranslationResult :=
  if sourceText = "" then none
  else
    let contextResults := findSimilarContext score bonus q store strat maxContextLength
    if translationReady then
      some (translateWithContext translate sourceText contextResults)
    else none

/-- The store with nothing loaded (main.js, lines 22-26: the initial
`vectorData`). -/
def emptyStore : VectorStore :=
  { documents := [], sections := [], paragraphs := [] }

/-! ## The result area and re-entrancy (src/frontend/js/main.js)

`setupTranslateButton` (lines 168-179) registers a click handler that runs
`handleTranslation` on every click; nothing in the file ever disables the
button or tracks an outstanding request.  `updateTranslationOutput` (lines
413-460) unconditionally overwrites `translationOutput.innerHTML` with the
rendered translation, and overwrites `contextInfo` with either the context
items or the no-context message.  The event model below makes the pending
requests and the out-of-order arrival of their responses explicit; the HTML
text of the context pane is abstracted to which branch of lines 425-457 was
taken, which is all the staleness question needs. -/

/-- The translation pane's HTML skeleton (main.js, lines 416-421). -/
def renderTranslation (translatedText : String) : String :=
  "<div class=\"translation-result\"><h3>Translation:</h3><p class=\"translated-text\">"
    ++ translatedText ++ "</p></div>"

/-- Which branch of `updateTranslationOutput` filled the context pane:
lines 425-449 (the items) or lines 450-457 (the no-context message). -/
inductive ContextPane
  | contextItems (items : List ScoredMatch)
  | noContextMessage
deriving DecidableEq

/-- The two DOM sinks `updateTranslationOutput` writes. -/
structure UIState where
  translationOutput : String
  contextInfo : ContextPane
deriving DecidableEq

/-- `updateTranslationOutput` (main.js, lines 413-460): both panes are
overwritten unconditionally — the previous `ui` contributes nothing to the
new contents, and no staleness check guards the write. -/
def updateTranslationOutput (translatedText : String)
    (contextUsed : List ScoredMatch) (_ui : UIState) : UIState :=
  { translationOutput := renderTranslation translatedText,
    contextInfo :=
      if contextUsed.isEmpty then .noContextMessage
      else .contextItems contextUsed }

/-- The single-tab application state: the DOM panes plus the source texts
of the in-flight translation requests, oldest first. -/
structure AppState where
  ui : UIState
  pending : List String
deriving DecidableEq

/-- The user/network events of one tab: a click on the translate button
(with the text area's current content), or the completion of the in-flight
request at position `idx` of the pending list, delivering its translated
text and context. -/
inductive UiEvent
  | click (sourceText : String)
  | complete (idx : Nat) (translatedText : String) (contextUsed : List ScoredMatch)

/-- One event step.  A click always starts a new pipeline: the handler of
`setupTranslateButton` (main.js, lines 174-176) runs unconditionally, the
button is never disabled and no generation counter exists.  A completion
removes its request from the pending list and applies
`updateTranslationOutput` with its own response — whatever else completed
in between. -/
def step (s : AppState) : UiEvent → AppState
  | .click sourceText => { s with pending := s.pending ++ [sourceText] }
  | .complete idx translatedText contextUsed =>
      if idx < s.pending.length then
        { ui := updateTranslationOutput translatedText contextUsed s.ui,
          pending := s.pending.eraseIdx idx }
      else s

/-- A whole event trace, left to right. -/
def runEvents (s : AppState) (events : List UiEvent) : AppState :=
  events.foldl step s

/-- The page's initial state: empty panes, nothing pending. -/
def initialAppState : AppState :=
  { ui := { translationOutput := "", contextInfo := .noContextMessage },
    pending := [] }

/-- The credential state with no key configured anywhere: `JINA_CONFIG.API_KEY`
still `null`, nothing in `localStorage`, no `api-config.js` key, no injected
environment variable. -/
def noKeys : ApiState :=
  { manualKey := none, localStore := none, configFileKey := none,
    envVarsKey := none }

/-! ## The budgeter's inclusion discipline as a relation

Spec §4.3 in relational form, used to state that `budget` includes an item
exactly when adding its full text keeps the running total within the
budget, and keeps walking after a skip. -/

/-- From running total `total`, the selection out of the remaining ranked
list: an item whose full text still fits is included (and the total grows
by its length), an item that does not fit is skipped and the walk
continues with the total unchanged. -/
inductive GreedySel (maxContextLength : Nat) : Nat → List ScoredMatch → List ScoredMatch → Prop
  | nil (total : Nat) : GreedySel maxContextLength total [] []
  | keep (total : Nat) (m : ScoredMatch) (rest out : List ScoredMatch) :
      total + m.item.text.length ≤ maxContextLength →
      GreedySel maxContextLength (total + m.item.text.length) rest out →
      GreedySel maxContextLength total (m :: rest) (m :: out)
  | skip (total : Nat) (m : ScoredMatch) (rest out : List ScoredMatch) :
      maxContextLength < total + m.item.text.length →
      GreedySel maxContextLength total rest out →
      GreedySel maxContextLength total (m :: rest) out

/-- The spec's concrete budgeter test (§8), top item: id 1, document level,
a 50-character text, score 0.9. -/
def c4TopItem : ScoredMatch :=
  { item := { id := 1, level := .document, embedding := [],
              text := List.replicate 50 'x', title := none, document_id := none },
    score := 9 / 10, level := .document }

/-- The spec's concrete budgeter test (§8), second item: id 2, paragraph
level, a 10-character text, score 0.5. -/
def c4SecondItem : ScoredMatch :=
  { item := { id := 2, level := .paragraph, embedding := [],
              text := List.replicate 10 'y', title := none, document_id := none },
    score := 1 / 2, level := .paragraph }

/-! ## Theorems -/

/-- The budgeter's walk realizes the greedy inclusion discipline from any
running total. -/
theorem budgetGo_greedySel (maxContextLength : Nat) :
    ∀ (l : List ScoredMatch) (total : Nat),
      GreedySel maxContextLength total l (budgetGo maxContextLength l total) := by
  intro l
  induction l with
  | nil => intro total; exact GreedySel.nil total
  | cons m rest ih =>
      intro total
      by_cases h : total + m.item.text.length ≤ maxContextLength
      · rw [budgetGo, if_pos h]
        exact GreedySel.keep total m rest _ h (ih _)
      · rw [budgetGo, if_neg h]
        exact GreedySel.skip total m rest _ (Nat.lt_of_not_le h) (ih _)

/-- When every remaining item is over budget relative to the current total,
the walk selects nothing. -/
theorem budgetGo_nil_of_oversized (maxContextLength : Nat) :
    ∀ (l : List ScoredMatch) (total : Nat),
      (∀ m ∈ l, maxContextLength < total + m.item.text.length) →
      budgetGo maxContextLength l total = [] := by
  intro l
  induction l with
  | nil => intro total _; rfl
  | cons m rest ih =>
      intro total h
      rw [budgetGo, if_neg (Nat.not_le.mpr (h m (List.mem_cons_self m rest)))]
      exact ih total fun m' hm' => h m' (List.mem_cons_of_mem m hm')

/-- Claim C1, counterexample: with the configured corpus dimension 1024 and
an API response whose embedding has dimension 2, `createUserInputEmbedding`
returns normally — it produces an `ok` result whose `dimensionMismatch.note`
merely records the mismatch — rather than failing, contradicting the claim
that embedding creation fails when the user-input embedding's dimension
differs from the configured corpus dimension. -/
theorem C1_counterexample :
    (createUserInputEmbedding id (.ok (some [1, 2])) JINA_DIMENSIONS "hello").isOk = true
    ∧ (createUserInputEmbedding id (.ok (some [1, 2])) JINA_DIMENSIONS "hello").toOption.map
        (fun u => u.mismatchNote) = some mismatchNoteText := by
  exact ⟨rfl, rfl⟩

/-- Claim C1, amended: the similarity scorer raises `DimensionMismatch`
whenever the two vectors' lengths differ (spec-modelled); but when the
user-input embedding's dimension differs from the configured corpus
dimension, `createUserInputEmbedding` does NOT fail — it returns normally,
recording the comparison in the result's `dimensionMismatch` note
("Dimension mismatch - consider regenerating corpus" exactly when the
dimensions differ). -/
theorem C1_dimension_mismatch :
    (∀ a b : List ℝ, a.length ≠ b.length →
        cosineSimilarity a b = .error .dimensionMismatch)
    ∧ (∀ (cleanText : String → String) (emb : List ℚ) (corpusDimension : Nat)
        (text : String), text ≠ "" → cleanText text ≠ "" →
        createUserInputEmbedding cleanText (.ok (some emb)) corpusDimension text
          = .ok { originalText := text,
                  preprocessedText := cleanText text,
                  embedding := emb,
                  dimension := emb.length,
                  mismatchNote :=
                    if emb.length ≠ corpusDimension then mismatchNoteText
                    else matchNoteText }) := by
  constructor
  · intro a b h
    unfold cosineSimilarity
    rw [if_pos h]
  · intro cleanText emb corpusDimension text ht hc
    unfold createUserInputEmbedding
    rw [if_neg ht]
    simp only [if_neg hc]

/-- Claim C1, witness: the amended theorem at concrete inputs — a
1-element query against a 2-element candidate raises `DimensionMismatch`,
and creation with a 1-dimensional embedding against corpus dimension 1024
returns an `ok` value. -/
theorem C1_dimension_mismatch_witness :
    cosineSimilarity [1] [1, 1] = .error .dimensionMismatch
    ∧ createUserInputEmbedding id (.ok (some [1])) 1024 "hola"
        = .ok { originalText := "hola", preprocessedText := "hola",
                embedding := [1], dimension := 1,
                mismatchNote := mismatchNoteText } := by
  constructor
  · exact C1_dimension_mismatch.1 [1] [1, 1] (by decide)
  · have h := C1_dimension_mismatch.2 id [1] 1024 "hola" (by decide) (by decide)
    simpa using h

/-- Claim C2, counterexample: from the initial page state, a first click,
a second click while the first request is still pending, the second
request's response arriving, and then the first (stale) response arriving,
leave the stale response's rendering in the output area — the stale
response overwrote the newer result, because the button is never disabled
and no staleness guard exists. -/
theorem C2_counterexample :
    (runEvents initialAppState
      [UiEvent.click "first input", UiEvent.click "second input",
       UiEvent.complete 1 "second translation" [],
       UiEvent.complete 0 "first translation" []]).ui.translationOutput
      = renderTranslation "first translation"
    ∧ renderTranslation "first translation" ≠ renderTranslation "second translation" := by
  constructor
  · rfl
  · decide

/-- Claim C2, amended: `main.js` has NO re-entrancy protection — the click
handler starts a new pipeline on every click even while requests are
pending (the triggering control is never disabled or ignored), and
`updateTranslationOutput` unconditionally overwrites the output area with
whatever response it is handed (the previous contents never influence the
write), so whichever response completes last wins, including a stale one. -/
theorem C2_no_reentrancy_guard :
    (∀ (s : AppState) (sourceText : String),
        step s (.click sourceText) = { s with pending := s.pending ++ [sourceText] })
    ∧ (∀ (translatedText : String) (contextUsed : List ScoredMatch) (ui ui' : UIState),
        updateTranslationOutput translatedText contextUsed ui
          = updateTranslationOutput translatedText contextUsed ui')
    ∧ (∀ (translatedText : String) (contextUsed : List ScoredMatch) (ui : UIState),
        (updateTranslationOutput translatedText contextUsed ui).translationOutput
          = renderTranslation translatedText) := by
  exact ⟨fun _ _ => rfl, fun _ _ _ _ => rfl, fun _ _ _ => rfl⟩

/-- Claim C3: against the empty store the ranker returns an empty ranked
list and the budgeter an empty selection without error; likewise when no
ranked item fits the budget the selection is empty; and `handleTranslation`
still proceeds to issue the translation request, with `contextUsed = []`,
rather than aborting the pipeline. -/
theorem C3_empty_context_proceeds :
    (∀ (score : List ℚ → List ℚ → Level → ℚ) (bonus : ℚ) (q : List ℚ)
        (strat : PriorityStrategy) (maxContextLength : Nat),
        rank score bonus q emptyStore strat = []
        ∧ findSimilarContext score bonus q emptyStore strat maxContextLength
            = { items := [], totalResults := 0, contextLength := 0 })
    ∧ (∀ (ranked : List ScoredMatch) (maxContextLength : Nat),
        (∀ m ∈ ranked, maxContextLength < m.item.text.length) →
        budget ranked maxContextLength
          = { items := [], totalResults := 0, contextLength := 0 })
    ∧ (∀ (score : List ℚ → List ℚ → Level → ℚ) (bonus : ℚ)
        (translate : String → List ScoredMatch → String) (sourceText : String)
        (q : List ℚ) (strat : PriorityStrategy) (maxContextLength : Nat),
        sourceText ≠ "" →
        (handleTranslation score bonus translate sourceText q emptyStore strat
            maxContextLength true).map (fun r => r.contextUsed) = some []) := by
  have hrank : ∀ (score : List ℚ → List ℚ → Level → ℚ) (bonus : ℚ) (q : List ℚ)
      (strat : PriorityStrategy), rank score bonus q emptyStore strat = [] := by
    intro score bonus q strat
    simp [rank, scoreStore, emptyStore]
  refine ⟨fun score bonus q strat maxContextLength =>
    ⟨hrank score bonus q strat, by simp [findSimilarContext, hrank, budget, budgetGo]⟩,
    ?_, ?_⟩
  · intro ranked maxContextLength h
    have hnil : budgetGo maxContextLength ranked 0 = [] :=
      budgetGo_nil_of_oversized maxContextLength ranked 0
        (fun m hm => by simpa using h m hm)
    simp [budget, hnil]
  · intro score bonus translate sourceText q strat maxContextLength h
    simp [handleTranslation, h, translateWithContext, findSimilarContext, hrank,
      budget, budgetGo]

/-- Claim C3, witness: the pieces of the theorem at concrete inputs — the
empty store yields the empty selection, a single 30-character item under a
20-character budget yields the empty selection, and the pipeline on the
empty store issues a translation whose `contextUsed` is `[]`. -/
theorem C3_empty_context_witness :
    findSimilarContext (fun _ _ _ => 0) 0 [] emptyStore .balanced 8000
      = { items := [], totalResults := 0, contextLength := 0 }
    ∧ budget [{ item := { id := 7, level := .paragraph, embedding := [],
                          text := List.replicate 30 'z', title := none,
                          document_id := none },
                score := 1, level := .paragraph }] 20
      = { items := [], totalResults := 0, contextLength := 0 }
    ∧ (handleTranslation (fun _ _ _ => 0) 0 (fun s _ => s) "hola" [] emptyStore
        .balanced 8000 true).map (fun r => r.contextUsed) = some [] := by
  refine ⟨(C3_empty_context_proceeds.1 _ 0 [] .balanced 8000).2, ?_, ?_⟩
  · refine C3_empty_context_proceeds.2.1 _ 20 ?_
    decide
  · exact C3_empty_context_proceeds.2.2 _ 0 _ "hola" [] .balanced 8000 (by decide)

/-- Claim C4: the budgeter realizes the greedy inclusion discipline — an
item is included exactly when adding its full text keeps the running total
within `maxContextLength`, and after a skip the walk keeps examining the
remaining lower-ranked items (best-effort packing, not first-fit-then-stop);
`totalResults` counts the included items and `contextLength` sums their
text lengths; and on the spec's concrete input (a 50-character top item, a
10-character second item, budget 20) the selection is item 2 alone with
`totalResults = 1` and `contextLength = 10`. -/
theorem C4_budget_best_effort :
    (∀ (ranked : List ScoredMatch) (maxContextLength : Nat),
        GreedySel maxContextLength 0 ranked (budget ranked maxContextLength).items
        ∧ (budget ranked maxContextLength).totalResults
            = (budget ranked maxContextLength).items.length
        ∧ (budget ranked maxContextLength).contextLength
            = ((budget ranked maxContextLength).items.map fun m => m.item.text.length).sum)
    ∧ budget [c4TopItem, c4SecondItem] 20
        = { items := [c4SecondItem], totalResults := 1, contextLength := 10 } := by
  constructor
  · intro ranked maxContextLength
    exact ⟨budgetGo_greedySel maxContextLength ranked 0, rfl, rfl⟩
  · rfl

/-- Claim C5: for every scoring function, query, store and priority
strategy, the ranker's output is a permutation of the scored items, sorted
descending by effective score; and any two same-level items appear in
non-increasing raw-score order — no strategy inverts the relative order of
two items of the same level, since a strategy's bonus depends only on the
level. -/
theorem C5_rank_order :
    ∀ (score : List ℚ → List ℚ → Level → ℚ) (bonus : ℚ) (q : List ℚ)
      (store : VectorStore) (strat : PriorityStrategy),
      (rank score bonus q store strat).Perm (scoreStore score q store)
      ∧ (rank score bonus q store strat).Pairwise
          (fun a b => effectiveScore bonus strat b ≤ effectiveScore bonus strat a)
      ∧ (rank score bonus q store strat).Pairwise
          (fun a b => a.level = b.level → b.score ≤ a.score) := by
  intro score bonus q store strat
  have hperm : (rank score bonus q store strat).Perm (scoreStore score q store) :=
    List.mergeSort_perm (scoreStore score q store) _
  have hsorted : (rank score bonus q store strat).Pairwise
      (fun a b => effectiveScore bonus strat b ≤ effectiveScore bonus strat a) := by
    have h := @List.sorted_mergeSort ScoredMatch
      (fun a b =>
        decide (effectiveScore bonus strat b ≤ effectiveScore bonus strat a))
      (fun a b c hab hbc => by
        simp only [decide_eq_true_eq] at *
        exact le_trans hbc hab)
      (fun a b => by
        simp only [Bool.or_eq_true, decide_eq_true_eq]
        exact le_total _ _)
      (scoreStore score q store)
    exact h.imp (by simp only [decide_eq_true_eq, imp_self, implies_true])
  refine ⟨hperm, hsorted, hsorted.imp ?_⟩
  intro a b h hl
  have h' : b.score + levelBonus bonus strat b.level
      ≤ a.score + levelBonus bonus strat a.level := h
  rw [hl] at h'
  exact le_of_add_le_add_right h'

/-- Claim C6, counterexample: the pair `[0]`, `[1, 1]` has a zero-magnitude
member, yet the scorer raises `DimensionMismatch` rather than returning the
score 0, because mismatched-dimension inputs always raise (the dimension
check precedes the zero-vector guard); so the claim does not hold for every
pair with a zero-magnitude member, only for equal-length pairs. -/
theorem C6_counterexample :
    cosineSimilarity [0] [1, 1] = .error .dimensionMismatch
    ∧ (Except.error SimError.dimensionMismatch : Except SimError ℝ) ≠ .ok 0 := by
  constructor
  · unfold cosineSimilarity
    rw [if_pos (by decide)]
  · simp

/-- Claim C6, amended: for every pair of EQUAL-LENGTH vectors of which at
least one has zero magnitude, the similarity scorer returns the score 0 and
does not raise, even though the cosine denominator is undefined there. -/
theorem C6_zero_vector :
    ∀ a b : List ℝ, a.length = b.length → dot a a = 0 ∨ dot b b = 0 →
      cosineSimilarity a b = .ok 0 := by
  intro a b hlen hzero
  unfold cosineSimilarity
  rw [if_neg (fun h => h hlen), if_pos hzero]

/-- Claim C6, witness: the zero vector `[0, 0]` against `[3, 4]` scores
`ok 0`. -/
theorem C6_zero_vector_witness :
    cosineSimilarity [0, 0] [3, 4] = .ok 0 :=
  C6_zero_vector [0, 0] [3, 4] rfl (Or.inl (by simp [dot]))

/-- Claim C7: scoring and ranking are deterministic — the scorer and the
ranking pipeline take nothing but the query, the corpus, and the options as
inputs (no hidden state, no randomness in the embedding), so two runs on
equal inputs produce identical scores, identical ranked orderings and
identical selections. -/
theorem C7_determinism :
    ∀ (score : List ℚ → List ℚ → Level → ℚ) (bonus : ℚ) (q q' : List ℚ)
      (store store' : VectorStore) (strat strat' : PriorityStrategy)
      (maxContextLength maxContextLength' : Nat) (a a' b b' : List ℝ),
      q = q' → store = store' → strat = strat' →
      maxContextLength = maxContextLength' → a = a' → b = b' →
      cosineSimilarity a b = cosineSimilarity a' b'
      ∧ rank score bonus q store strat = rank score bonus q' store' strat'
      ∧ findSimilarContext score bonus q store strat maxContextLength
          = findSimilarContext score bonus q' store' strat' maxContextLength' := by
  intro score bonus q q' store store' strat strat' maxContextLength
    maxContextLength' a a' b b' hq hst hstrat hmax ha hb
  subst hq hst hstrat hmax ha hb
  exact ⟨rfl, rfl, rfl⟩

/-- Claim C7, witness: the determinism theorem applied at concrete equal
inputs. -/
theorem C7_determinism_witness :
    cosineSimilarity [1] [1] = cosineSimilarity [1] [1]
    ∧ rank (fun _ _ _ => 0) 0 [] emptyStore .balanced
        = rank (fun _ _ _ => 0) 0 [] emptyStore .balanced
    ∧ findSimilarContext (fun _ _ _ => 0) 0 [] emptyStore .balanced 8000
        = findSimilarContext (fun _ _ _ => 0) 0 [] emptyStore .balanced 8000 :=
  C7_determinism (fun _ _ _ => 0) 0 [] [] emptyStore emptyStore .balanced
    .balanced 8000 8000 [1] [1] [1] [1] rfl rfl rfl rfl rfl rfl

/-- Claim C8: when no credential is configured anywhere — no manually set
key, no stored key, no config-file key, no injected environment key —
`getApiKey` yields nothing and both `callJinaAPI` and `loadEmbeddingModel`
fail with the distinguishable missing-credential error before any request
is assembled (the throw precedes `fetch`, so no `JinaRequest` is ever
produced), in every environment. -/
theorem C8_missing_credential_fails_fast :
    ∀ (s : ApiState) (env : Environment) (input : List (List Char)),
      s.manualKey = none → s.localStore = none → s.configFileKey = none →
      s.envVarsKey = none →
      getApiKey s env = none
      ∧ callJinaAPIPrepare s env input = .error .apiKeyMissing
      ∧ loadEmbeddingModelGate s env = .error .apiKeyMissing := by
  intro s env input h1 h2 h3 h4
  have hk : getApiKey s env = none := by
    cases env <;> simp [getApiKey, jsTruthy, h1, h2, h3, h4]
  refine ⟨hk, ?_, ?_⟩
  · simp [callJinaAPIPrepare, hk]
  · simp [loadEmbeddingModelGate, hasKey, hk]

/-- Claim C8, witness: the empty credential state on GitHub Pages. -/
theorem C8_missing_credential_witness :
    getApiKey noKeys .githubPages = none
    ∧ callJinaAPIPrepare noKeys .githubPages [] = .error .apiKeyMissing
    ∧ loadEmbeddingModelGate noKeys .githubPages = .error .apiKeyMissing :=
  C8_missing_credential_fails_fast noKeys .githubPages [] rfl rfl rfl rfl

/-- Claim C9: an input to the JINA API call longer than
`MAX_INPUT_LENGTH = 8192` characters is silently truncated to exactly its
first 8192 characters (no error is raised: with a key present the call
still assembles its request, whose inputs are the truncated texts), while
an input of at most 8192 characters is sent unchanged. -/
theorem C9_input_truncation :
    (∀ t : List Char,
        (t.length ≤ MAX_INPUT_LENGTH → jinaPrepareText t = t)
        ∧ (MAX_INPUT_LENGTH < t.length →
            jinaPrepareText t = t.take MAX_INPUT_LENGTH
            ∧ (jinaPrepareText t).length = MAX_INPUT_LENGTH))
    ∧ (∀ (s : ApiState) (env : Environment) (input : List (List Char)) (k : String),
        getApiKey s env = some k →
        callJinaAPIPrepare s env input
          = .ok { input := input.map jinaPrepareText, model := JINA_MODEL,
                  dimensions := JINA_DIMENSIONS, normalized := true }) := by
  constructor
  · intro t
    constructor
    · intro h
      rw [jinaPrepareText, if_neg (Nat.not_lt.mpr h)]
    · intro h
      rw [jinaPrepareText, if_pos h]
      exact ⟨rfl, by rw [List.length_take]; exact Nat.min_eq_left (Nat.le_of_lt h)⟩
  · intro s env input k hk
    simp [callJinaAPIPrepare, hk]

/-- Claim C9, witness: an 8193-character input is truncated to its first
8192 characters; a 2-character input passes through unchanged. -/
theorem C9_input_truncation_witness :
    jinaPrepareText (List.replicate 8193 'a') = List.replicate 8192 'a'
    ∧ jinaPrepareText ['h', 'i'] = ['h', 'i'] := by
  constructor
  · have h := ((C9_input_truncation.1 (List.replicate 8193 'a')).2
      (by rw [List.length_replicate]; norm_num [MAX_INPUT_LENGTH])).1
    rw [h, List.take_replicate]
    norm_num [MAX_INPUT_LENGTH]
  · exact (C9_input_truncation.1 ['h', 'i']).1
      (by norm_num [MAX_INPUT_LENGTH])

/-- Claim C10: for every non-empty key, a successful `storeApiKeyLocally`
(no error returned) leaves the key both in `localStorage` and in memory,
and every subsequent `getApiKey` returns that key in EVERY environment,
github_pages included, because the in-memory manual key is consulted before
any environment-specific source; and `storeApiKeyLocally` of the empty key
throws (from `setJinaApiKey`) and leaves the in-memory key unchanged.  (The
non-string case of the claim is subsumed by typing in this embedding.) -/
theorem C10_stored_key_wins :
    (∀ (k : String) (s : ApiState), k ≠ "" →
        (storeApiKeyLocally k true s).1 = none
        ∧ (storeApiKeyLocally k true s).2.manualKey = some k
        ∧ (storeApiKeyLocally k true s).2.localStore = some k
        ∧ ∀ env, getApiKey (storeApiKeyLocally k true s).2 env = some k)
    ∧ (∀ s : ApiState,
        ((storeApiKeyLocally "" true s).1).isSome = true
        ∧ (storeApiKeyLocally "" true s).2.manualKey = s.manualKey) := by
  constructor
  · intro k s hk
    have hstore : storeApiKeyLocally k true s
        = (none, { s with localStore := some k, manualKey := some k }) := by
      simp [storeApiKeyLocally, setJinaApiKey, hk]
    refine ⟨by rw [hstore], by rw [hstore], by rw [hstore], ?_⟩
    intro env
    rw [hstore]
    simp [getApiKey, jsTruthy, hk]
  · intro s
    exact ⟨rfl, rfl⟩

/-- Claim C10, witness: storing `"abc123"` succeeds and `getApiKey` then
returns it in both environments; storing the empty key throws and leaves
the in-memory key unset. -/
theorem C10_stored_key_wins_witness :
    (storeApiKeyLocally "abc123" true noKeys).1 = none
    ∧ getApiKey (storeApiKeyLocally "abc123" true noKeys).2 .githubPages
        = some "abc123"
    ∧ getApiKey (storeApiKeyLocally "abc123" true noKeys).2 .localDevelopment
        = some "abc123"
    ∧ (storeApiKeyLocally "" true noKeys).2.manualKey = none := by
  have h := C10_stored_key_wins.1 "abc123" noKeys (by decide)
  exact ⟨h.1, h.2.2.2 .githubPages, h.2.2.2 .localDevelopment,
    (C10_stored_key_wins.2 noKeys).2⟩

end PragmaticAutoTranslator
